import Mathlib

/-!
# LuaSocket UDP object (`src/udp.c`)

A shallow embedding of the methods of the UDP object of the LuaSocket toolkit.

Conventions of the embedding.

* A method takes the external collaborators (`Driver`), the object it is called
  on (`UdpObject`, the userdata together with its class tag) and its arguments,
  and returns a `Step`: what the call gave back to Lua (`Outcome`: the values it
  pushed, or the error it raised through `luaL_argerror` / `luaL_typerror`), the
  object after the call, and the driver calls it made, in order.
* Arguments marshalled by the Lua auxiliary library (`luaL_checklstring`,
  `luaL_checkstring`, `luaL_checknumber`) appear with their C type: a
  `const char *` is the text up to its terminating NUL (a `String`), a port is
  the `unsigned short` the argument converted to. An optional argument
  (`luaL_optnumber`, `luaL_optstring`) is an `Option`.
* The size argument of `receive` and `receivefrom` is a Lua number, taken with
  an integral value (an `Int`); its conversion `(size_t)` is `size_t_cast`.
* `udp.c` is the only source file. The headers and helper modules it uses
  (`io.h`, `timeout.c`, `auxiliar.c`, `socket.h`, `udp.h`) are modelled from the
  specification where a definition says so; the socket driver, the address
  codec and the clock are parameters (`Driver`).
-/

namespace LuaSocket

/-! ## Data model -/

/-- Modelled from the spec: the driver status codes of `io.h` (not part of the
sources): success, and the failures the specification names in section 4.4
(`Timeout`, `Closed`, `PeerRejected`, and any other driver error with its
reason). `udp.c` uses `IO_DONE`, `IO_CLOSED` and `IO_REFUSED` by name. -/
inductive IOStatus where
  | IO_DONE
  | IO_TIMEOUT
  | IO_CLOSED
  | IO_REFUSED
  | IO_ERROR (reason : String)
  deriving DecidableEq, Repr

/-- Modelled from the spec: the failure classification of section 4.4 that an
I/O operation hands to its caller. -/
inductive Failure where
  | Timeout
  | Closed
  | PeerRejected
  | DriverError (reason : String)
  deriving DecidableEq, Repr

/-- The socket handle `t_sock`, a descriptor number. -/
abbrev t_sock := Int

/-- Modelled from the spec: the value of a handle that has been released
(`socket.h` is not part of the sources). -/
def SOCK_INVALID : t_sock := -1

/-- Modelled from the spec: the timeout record `t_tm` of `timeout.h`: the policy
`(block, total)`, a negative value meaning infinite, and the deadline clock
`start`. -/
structure t_tm where
  block : Int
  total : Int
  start : Int
  deriving DecidableEq, Repr

/-- The record `t_udp` of `udp.h`, as `udp.c` uses it: `udp->sock`, `udp->tm`. -/
structure t_udp where
  sock : t_sock
  tm : t_tm
  deriving DecidableEq, Repr

/-- The two classes `udp_open` registers: `udp{connected}`, `udp{unconnected}`. -/
inductive ClassName where
  | udp_connected
  | udp_unconnected
  deriving DecidableEq, Repr

/-- The two groups `udp_open` registers: `udp{any}`, `select{able}`. -/
inductive GroupName where
  | udp_any
  | select_able
  deriving DecidableEq, Repr

/-- A UDP userdata together with the class it is tagged with (`aux_setclass`). -/
structure UdpObject where
  udp : t_udp
  cls : ClassName
  deriving DecidableEq, Repr

/-- A value held in a field of a Lua table. `other` stands for every value that
is neither nil, a boolean, a number nor a string. -/
inductive LuaField where
  | nil
  | boolean (b : Bool)
  | number (n : Int)
  | string (s : String)
  | other
  deriving DecidableEq, Repr

/-- A Lua value on the stack. `failure f` is the message `io_pusherror` pushes,
kept as the classification it denotes. -/
inductive LuaValue where
  | nil
  | boolean (b : Bool)
  | number (n : Int)
  | string (s : String)
  | failure (f : Failure)
  | table (fields : List (String × LuaField))
  | userdata (o : UdpObject)
  deriving DecidableEq, Repr

/-- An error raised into Lua; the call does not return. -/
inductive LuaError where
  | argerror (narg : Nat) (extramsg : String)
  | typerror (narg : Nat) (tname : String)
  deriving DecidableEq, Repr

/-- What a C function registered with Lua gave back: the values it pushed and
returned, or the error it raised. -/
inductive Outcome where
  | raise (e : LuaError)
  | ret (vals : List LuaValue)
  deriving DecidableEq, Repr

/-- A `struct sockaddr_in` of family `AF_INET`: address and port, both as the
numbers they denote (`htons` / `ntohs` only change the byte order in memory). -/
structure sockaddr_in where
  sin_addr : Nat
  sin_port : Nat
  deriving DecidableEq, Repr

/-- The `level` argument of `setsockopt`. -/
inductive SockLevel where
  | SOL_SOCKET
  | IPPROTO_IP
  deriving DecidableEq, Repr

/-- The `name` argument of `setsockopt`. -/
inductive SockOpt where
  | SO_DONTROUTE
  | SO_REUSEADDR
  | SO_BROADCAST
  | IP_MULTICAST_LOOP
  | IP_MULTICAST_TTL
  | IP_ADD_MEMBERSHIP
  | IP_DROP_MEMBERSHIP
  deriving DecidableEq, Repr

/-- The value handed to `setsockopt`: an `int`, or a `struct ip_mreq`. -/
inductive OptVal where
  | int (v : Int)
  | ip_mreq (imr_multiaddr : Nat) (imr_interface : Nat)
  deriving DecidableEq, Repr

/-- A call into the socket driver, with the arguments `udp.c` passed. -/
inductive DriverCall where
  | sock_send (sock : t_sock) (data : String) (timeout : Int)
  | sock_sendto (sock : t_sock) (data : String) (addr : sockaddr_in) (timeout : Int)
  | sock_recv (sock : t_sock) (count : Nat) (timeout : Int)
  | sock_recvfrom (sock : t_sock) (count : Nat) (timeout : Int)
  | sock_shutdown (sock : t_sock) (how : Nat)
  | sock_destroy (sock : t_sock)
  | inet_tryconnect (sock : t_sock) (address : String) (port : Nat)
  | inet_trybind (sock : t_sock) (address : String) (port : Nat) (backlog : Int)
  | inet_trycreate
  | setsockopt (sock : t_sock) (level : SockLevel) (name : SockOpt) (val : OptVal)
  deriving DecidableEq, Repr

/-- The external collaborators of `udp.c`: the socket driver (`sock_*`,
`inet_try*`, `setsockopt`), the address codec (`inet_aton`, `inet_ntoa`), the
clock read by the timeout tracker (`tm_gettime k` is the reading number `k`
made during one method call), the number-to-text conversion of the Lua core,
and the platform: the largest `size_t` (`SIZE_MAX`) and what its compiler
makes of converting a number outside the range of `size_t`, which C leaves
undefined (`size_t_undefined`). Each is an arbitrary function of the arguments
it is passed. -/
structure Driver where
  sock_send : t_sock → String → Int → IOStatus × Nat
  sock_sendto : t_sock → String → sockaddr_in → Int → IOStatus × Nat
  sock_recv : t_sock → Nat → Int → IOStatus × String
  sock_recvfrom : t_sock → Nat → Int → IOStatus × String × sockaddr_in
  inet_tryconnect : t_sock → t_tm → String → Nat → Option String
  inet_trybind : t_sock → String → Nat → Int → Option String
  inet_trycreate : Option String × t_sock
  setsockopt : t_sock → SockLevel → SockOpt → OptVal → Int
  inet_aton : String → Option Nat
  inet_ntoa : Nat → String
  tm_gettime : Nat → Int
  lua_number2str : Int → String
  SIZE_MAX : Nat
  size_t_undefined : Int → Nat

/-- The result of one method call: what went back to Lua, the object after the
call, and the driver calls made. -/
structure Step where
  out : Outcome
  obj : UdpObject
  calls : List DriverCall
  deriving DecidableEq, Repr

/-! ## Helper modules -/

/-- Modelled from the spec: the maximum datagram size `UDP_DATAGRAMSIZE` of
`udp.h` (not part of the sources), 8KB being the reference default. -/
def UDP_DATAGRAMSIZE : Nat := 8192

/-- The constant `INADDR_ANY`. -/
def INADDR_ANY : Nat := 0

/-- The groups each class was added to by `udp_open` (`aux_add2group`). -/
def udp_open (c : ClassName) : List GroupName :=
  match c with
  | .udp_connected => [.udp_any, .select_able]
  | .udp_unconnected => [.udp_any, .select_able]

/-- The printed name of a class. -/
def ClassName.name (c : ClassName) : String :=
  match c with
  | .udp_connected => "udp\x7bconnected\x7d"
  | .udp_unconnected => "udp\x7bunconnected\x7d"

/-- The printed name of a group. -/
def GroupName.name (g : GroupName) : String :=
  match g with
  | .udp_any => "udp\x7bany\x7d"
  | .select_able => "select\x7bable\x7d"

/-- Modelled from the spec: `aux_checkclass` of `auxiliar.c` (not part of the
sources). An operation that is illegal in the state of the Endpoint fails with
an argument error (sections 3, 7 and 8 of the specification): the object at
`objidx` must be tagged with exactly the class asked for. -/
def aux_checkclass (classname : ClassName) (objidx : Nat) (o : UdpObject) :
    Except LuaError t_udp :=
  if o.cls = classname then .ok o.udp
  else .error (.argerror objidx (classname.name ++ " expected"))

/-- Modelled from the spec: `aux_checkgroup` of `auxiliar.c` (not part of the
sources): the class of the object at `objidx` must belong to the group. -/
def aux_checkgroup (groupname : GroupName) (objidx : Nat) (o : UdpObject) :
    Except LuaError t_udp :=
  if groupname ∈ udp_open o.cls then .ok o.udp
  else .error (.argerror objidx (groupname.name ++ " expected"))

/-- Modelled from the spec: `aux_checkboolean` of `auxiliar.c` (not part of the
sources): boolean options require a boolean (section 4.2). -/
def aux_checkboolean (objidx : Nat) (v : LuaValue) : Except LuaError Int :=
  match v with
  | .boolean b => .ok (if b then 1 else 0)
  | _ => .error (.typerror objidx "boolean")

/-- Modelled from the spec: `tm_init` of `timeout.c` (not part of the sources):
sets the policy. -/
def tm_init (block total : Int) : t_tm :=
  { block := block, total := total, start := 0 }

/-- Modelled from the spec: `tm_markstart` of `timeout.c` (not part of the
sources): resets the deadline clock to now (section 4.1). -/
def tm_markstart (tm : t_tm) (now : Int) : t_tm :=
  { tm with start := now }

/-- Modelled from the spec: `tm_get` of `timeout.c` (not part of the sources):
the smaller of the block timeout and the time left until the total timeout
elapses since the last `tm_markstart`; infinite (`-1`) if both are infinite
(section 4.1). -/
def tm_get (tm : t_tm) (now : Int) : Int :=
  if tm.block < 0 ∧ tm.total < 0 then -1
  else if tm.block < 0 then max (tm.total - (now - tm.start)) 0
  else if tm.total < 0 then tm.block
  else min tm.block (max (tm.total - (now - tm.start)) 0)

/-- Modelled from the spec: `io_pusherror` of `io.c` (not part of the sources):
nothing (nil) for success, otherwise the failure classification of section 4.4
for the status. -/
def io_pusherror (code : IOStatus) : LuaValue :=
  match code with
  | .IO_DONE => .nil
  | .IO_TIMEOUT => .failure .Timeout
  | .IO_CLOSED => .failure .Closed
  | .IO_REFUSED => .failure .PeerRejected
  | .IO_ERROR reason => .failure (.DriverError reason)

/-- Modelled from the spec: `sock_destroy` of the socket driver (not part of the
sources): releases the handle (section 4.4, `close`). -/
def sock_destroy (_ : t_sock) : t_sock := SOCK_INVALID

/-- The C conversion `(size_t) x` of a Lua number with the integral value `x`:
the value itself when it lies in the range of `size_t`, and otherwise whatever
the platform gives, the conversion being undefined in C. -/
def size_t_cast (d : Driver) (x : Int) : Nat :=
  if 0 ≤ x ∧ x ≤ (d.SIZE_MAX : Int) then x.toNat else d.size_t_undefined x

/-- The Lua API `lua_gettable` with a string key: the field, or nil. -/
def lua_gettable (fields : List (String × LuaField)) (key : String) : LuaField :=
  match fields.find? (fun kv => kv.1 == key) with
  | some kv => kv.2
  | none => .nil

/-- The Lua API `lua_isstring`: strings, and numbers (convertible). -/
def lua_isstring (v : LuaField) : Bool :=
  match v with
  | .string _ => true
  | .number _ => true
  | _ => false

/-- The Lua API `lua_tostring` on a value `lua_isstring` accepts. -/
def lua_tostring (d : Driver) (v : LuaField) : String :=
  match v with
  | .string s => s
  | .number n => d.lua_number2str n
  | _ => ""

/-! ## Methods of the UDP object -/

/-- Method `meth_send`: sends data through a connected UDP socket. -/
def meth_send (d : Driver) (o : UdpObject) (data : String) : Step :=
  match aux_checkclass .udp_connected 1 o with
  | .error e => { out := .raise e, obj := o, calls := [] }
  | .ok udp =>
    let tm := tm_markstart udp.tm (d.tm_gettime 0)
    let timeout := tm_get tm (d.tm_gettime 1)
    let r := d.sock_send udp.sock data timeout
    let err := r.1
    let sent := r.2
    let v1 := if err = .IO_DONE then LuaValue.number sent else LuaValue.nil
    -- a closed error on an unconnected means the target address was not
    -- accepted by the transport layer
    let v2 := io_pusherror (if err = .IO_CLOSED then .IO_REFUSED else err)
    { out := .ret [v1, v2]
      obj := { o with udp := { udp with tm := tm } }
      calls := [.sock_send udp.sock data timeout] }

/-- Method `meth_sendto`: sends data through an unconnected UDP socket. -/
def meth_sendto (d : Driver) (o : UdpObject) (data : String) (ip : String)
    (port : Nat) : Step :=
  match aux_checkclass .udp_unconnected 1 o with
  | .error e => { out := .raise e, obj := o, calls := [] }
  | .ok udp =>
    match d.inet_aton ip with
    | none => { out := .raise (.argerror 3 "invalid ip address"), obj := o, calls := [] }
    | some sin_addr =>
      let addr : sockaddr_in := { sin_addr := sin_addr, sin_port := port }
      let tm := tm_markstart udp.tm (d.tm_gettime 0)
      let timeout := tm_get tm (d.tm_gettime 1)
      let r := d.sock_sendto udp.sock data addr timeout
      let err := r.1
      let sent := r.2
      let v1 := if err = .IO_DONE then LuaValue.number sent else LuaValue.nil
      let v2 := io_pusherror (if err = .IO_CLOSED then .IO_REFUSED else err)
      { out := .ret [v1, v2]
        obj := { o with udp := { udp with tm := tm } }
        calls := [.sock_sendto udp.sock data addr timeout] }

/-- Method `meth_receive`: receives data from a UDP socket. The argument is
argument 2 of `luaL_optnumber(L, 2, sizeof(buffer))`, `none` when it is
absent. -/
def meth_receive (d : Driver) (o : UdpObject) (count : Option Int) : Step :=
  match aux_checkgroup .udp_any 1 o with
  | .error e => { out := .raise e, obj := o, calls := [] }
  | .ok udp =>
    let count := size_t_cast d (count.getD UDP_DATAGRAMSIZE)
    let count := min count UDP_DATAGRAMSIZE
    let tm := tm_markstart udp.tm (d.tm_gettime 0)
    let timeout := tm_get tm (d.tm_gettime 1)
    let r := d.sock_recv udp.sock count timeout
    let err := r.1
    let v1 := if err = .IO_DONE then LuaValue.string r.2 else LuaValue.nil
    let v2 := io_pusherror err
    { out := .ret [v1, v2]
      obj := { o with udp := { udp with tm := tm } }
      calls := [.sock_recv udp.sock count timeout] }

/-- Method `meth_receivefrom`: receives data and sender from a UDP socket. -/
def meth_receivefrom (d : Driver) (o : UdpObject) (count : Option Int) : Step :=
  match aux_checkclass .udp_unconnected 1 o with
  | .error e => { out := .raise e, obj := o, calls := [] }
  | .ok udp =>
    let count := size_t_cast d (count.getD UDP_DATAGRAMSIZE)
    let tm := tm_markstart udp.tm (d.tm_gettime 0)
    let count := min count UDP_DATAGRAMSIZE
    let timeout := tm_get tm (d.tm_gettime 1)
    let r := d.sock_recvfrom udp.sock count timeout
    let err := r.1
    let addr := r.2.2
    let obj : UdpObject := { o with udp := { udp with tm := tm } }
    let calls := [DriverCall.sock_recvfrom udp.sock count timeout]
    if err = .IO_DONE then
      { out := .ret [.string r.2.1, .string (d.inet_ntoa addr.sin_addr),
                     .number addr.sin_port]
        obj := obj, calls := calls }
    else
      { out := .ret [.nil, io_pusherror err], obj := obj, calls := calls }

/-- Method `meth_fd`: select support, the descriptor. -/
def meth_fd (o : UdpObject) : Step :=
  match aux_checkgroup .udp_any 1 o with
  | .error e => { out := .raise e, obj := o, calls := [] }
  | .ok udp => { out := .ret [.number udp.sock], obj := o, calls := [] }

/-- Method `meth_dirty`: select support, never any buffered data. -/
def meth_dirty (o : UdpObject) : Step :=
  match aux_checkgroup .udp_any 1 o with
  | .error e => { out := .raise e, obj := o, calls := [] }
  | .ok _ => { out := .ret [.boolean false], obj := o, calls := [] }

/-- Handler `opt_boolean`, shared by the boolean options. -/
def opt_boolean (d : Driver) (o : UdpObject) (level : SockLevel) (name : SockOpt)
    (arg : LuaValue) : Step :=
  match aux_checkgroup .udp_any 1 o with
  | .error e => { out := .raise e, obj := o, calls := [] }
  | .ok udp =>
    match aux_checkboolean 2 arg with
    | .error e => { out := .raise e, obj := o, calls := [] }
    | .ok val =>
      let calls := [DriverCall.setsockopt udp.sock level name (.int val)]
      if d.setsockopt udp.sock level name (.int val) < 0 then
        { out := .ret [.nil, .string "setsockopt failed"], obj := o, calls := calls }
      else
        { out := .ret [.number 1], obj := o, calls := calls }

/-- Handler `opt_dontroute`. -/
def opt_dontroute (d : Driver) (o : UdpObject) (arg : LuaValue) : Step :=
  opt_boolean d o .SOL_SOCKET .SO_DONTROUTE arg

/-- Handler `opt_reuseaddr`. -/
def opt_reuseaddr (d : Driver) (o : UdpObject) (arg : LuaValue) : Step :=
  opt_boolean d o .SOL_SOCKET .SO_REUSEADDR arg

/-- Handler `opt_broadcast`. -/
def opt_broadcast (d : Driver) (o : UdpObject) (arg : LuaValue) : Step :=
  opt_boolean d o .SOL_SOCKET .SO_BROADCAST arg

/-- Handler `opt_ip_multicast_loop`. -/
def opt_ip_multicast_loop (d : Driver) (o : UdpObject) (arg : LuaValue) : Step :=
  opt_boolean d o .IPPROTO_IP .IP_MULTICAST_LOOP arg

/-- Handler `opt_ip_multicast_ttl`; `val` is `(int) luaL_checknumber(L, 2)`. -/
def opt_ip_multicast_ttl (d : Driver) (o : UdpObject) (val : Int) : Step :=
  match aux_checkgroup .udp_any 1 o with
  | .error e => { out := .raise e, obj := o, calls := [] }
  | .ok udp =>
    let calls := [DriverCall.setsockopt udp.sock .IPPROTO_IP .IP_MULTICAST_TTL (.int val)]
    if d.setsockopt udp.sock .IPPROTO_IP .IP_MULTICAST_TTL (.int val) < 0 then
      { out := .ret [.nil, .string "setsockopt failed"], obj := o, calls := calls }
    else
      { out := .ret [.number 1], obj := o, calls := calls }

/-- Handler `opt_membership`, shared by the two membership options. -/
def opt_membership (d : Driver) (o : UdpObject) (level : SockLevel) (name : SockOpt)
    (arg : LuaValue) : Step :=
  match aux_checkgroup .udp_any 1 o with
  | .error e => { out := .raise e, obj := o, calls := [] }
  | .ok udp =>
    match arg with
    | .table fields =>
      let multiaddr := lua_gettable fields "multiaddr"
      if !lua_isstring multiaddr then
        { out := .raise (.argerror 2 "invalid 'group' field"), obj := o, calls := [] }
      else
        match d.inet_aton (lua_tostring d multiaddr) with
        | none =>
          { out := .raise (.argerror 3 "invalid 'multiaddr' ip address"), obj := o,
            calls := [] }
        | some imr_multiaddr =>
          let interface := lua_gettable fields "interface"
          if !lua_isstring interface then
            { out := .raise (.argerror 2 "invalid 'interface' field"), obj := o,
              calls := [] }
          else
            let parsed : Option Nat :=
              if lua_tostring d interface ≠ "*" then d.inet_aton (lua_tostring d interface)
              else some INADDR_ANY
            match parsed with
            | none =>
              { out := .raise (.argerror 3 "invalid 'interface' ip address"), obj := o,
                calls := [] }
            | some imr_interface =>
              let val := OptVal.ip_mreq imr_multiaddr imr_interface
              let calls := [DriverCall.setsockopt udp.sock level name val]
              if d.setsockopt udp.sock level name val < 0 then
                { out := .ret [.nil, .string "setsockopt failed"], obj := o,
                  calls := calls }
              else
                { out := .ret [.number 1], obj := o, calls := calls }
    | _ => { out := .raise (.typerror 2 "table"), obj := o, calls := [] }

/-- Handler `opt_ip_add_membership`. -/
def opt_ip_add_membership (d : Driver) (o : UdpObject) (arg : LuaValue) : Step :=
  opt_membership d o .IPPROTO_IP .IP_ADD_MEMBERSHIP arg

/-- Handler `opt_ip_drop_membersip`. -/
def opt_ip_drop_membersip (d : Driver) (o : UdpObject) (arg : LuaValue) : Step :=
  opt_membership d o .IPPROTO_IP .IP_DROP_MEMBERSHIP arg

/-- Method `meth_setpeername`: turns a master udp object into a client object.
`port` is argument 3, `none` when it is absent. -/
def meth_setpeername (d : Driver) (o : UdpObject) (address : String)
    (port : Option Nat) : Step :=
  match aux_checkclass .udp_unconnected 1 o with
  | .error e => { out := .raise e, obj := o, calls := [] }
  | .ok udp =>
    let connecting : Bool := address != "*"
    let checked : Except LuaError Nat :=
      if connecting then
        match port with
        | some p => .ok p
        | none => .error (.typerror 3 "number")
      else .ok (port.getD 0)
    match checked with
    | .error e => { out := .raise e, obj := o, calls := [] }
    | .ok port =>
      let calls := [DriverCall.inet_tryconnect udp.sock address port]
      match d.inet_tryconnect udp.sock udp.tm address port with
      | some err => { out := .ret [.nil, .string err], obj := o, calls := calls }
      | none =>
        -- change class to connected or unconnected depending on address
        let cls : ClassName := if connecting then .udp_connected else .udp_unconnected
        { out := .ret [.number 1], obj := { o with cls := cls }, calls := calls }

/-- Method `meth_close`: closes the socket used by the object. -/
def meth_close (o : UdpObject) : Step :=
  match aux_checkgroup .udp_any 1 o with
  | .error e => { out := .raise e, obj := o, calls := [] }
  | .ok udp =>
    { out := .ret []
      obj := { o with udp := { udp with sock := sock_destroy udp.sock } }
      calls := [.sock_destroy udp.sock] }

/-- Method `meth_shutdown`: shuts the connection down partially. `how` is
argument 2, `none` when it is absent (`luaL_optstring(L, 2, "both")`). -/
def meth_shutdown (o : UdpObject) (how : Option String) : Step :=
  match aux_checkgroup .udp_any 1 o with
  | .error e => { out := .raise e, obj := o, calls := [] }
  | .ok udp =>
    let how := how.getD "both"
    let error : Step :=
      { out := .raise (.argerror 2 "invalid shutdown method"), obj := o, calls := [] }
    match how.data.head? with
    | some 'b' =>
      if how != "both" then error
      else { out := .ret [], obj := o, calls := [.sock_shutdown udp.sock 2] }
    | some 's' =>
      if how != "send" then error
      else { out := .ret [], obj := o, calls := [.sock_shutdown udp.sock 1] }
    | some 'r' =>
      if how != "receive" then error
      else { out := .ret [], obj := o, calls := [.sock_shutdown udp.sock 0] }
    | _ => { out := .ret [], obj := o, calls := [] }

/-- Method `meth_setsockname`: turns a master object into a server object. -/
def meth_setsockname (d : Driver) (o : UdpObject) (address : String) (port : Nat) :
    Step :=
  match aux_checkclass .udp_unconnected 1 o with
  | .error e => { out := .raise e, obj := o, calls := [] }
  | .ok udp =>
    let calls := [DriverCall.inet_trybind udp.sock address port (-1)]
    match d.inet_trybind udp.sock address port (-1) with
    | some err => { out := .ret [.nil, .string err], obj := o, calls := calls }
    | none => { out := .ret [.number 1], obj := o, calls := calls }

/-- Library function `global_create`: creates a master udp object. It has no
object to start from: the result is the outcome and the driver calls. -/
def global_create (d : Driver) : Outcome × List DriverCall :=
  let r := d.inet_trycreate
  match r.1 with
  | none =>
    let udp : t_udp := { sock := r.2, tm := tm_init (-1) (-1) }
    (.ret [.userdata { udp := udp, cls := .udp_unconnected }], [.inet_trycreate])
  | some err => (.ret [.nil, .string err], [.inet_trycreate])

/-! ## Predicates used in the statements -/

/-- The driver reports `IO_CLOSED` for every transfer on a released handle. -/
def ReportsClosedWhenDestroyed (d : Driver) : Prop :=
  (∀ data timeout, (d.sock_send SOCK_INVALID data timeout).1 = .IO_CLOSED) ∧
  (∀ data addr timeout, (d.sock_sendto SOCK_INVALID data addr timeout).1 = .IO_CLOSED) ∧
  (∀ count timeout, (d.sock_recv SOCK_INVALID count timeout).1 = .IO_CLOSED) ∧
  (∀ count timeout, (d.sock_recvfrom SOCK_INVALID count timeout).1 = .IO_CLOSED)

/-- The budget a method passes to the driver: `tm_get(tm)` evaluated right
after `tm_markstart(tm)`, with the two clock readings of the call. -/
def budget (d : Driver) (tm : t_tm) : Int :=
  tm_get (tm_markstart tm (d.tm_gettime 0)) (d.tm_gettime 1)

/-- The same Endpoint with its deadline clock last marked at `s`. -/
def UdpObject.withStart (o : UdpObject) (s : Int) : UdpObject :=
  { o with udp := { o.udp with tm := { o.udp.tm with start := s } } }

/-- The second value a call returned, the place of the failure reason. -/
def Step.second (s : Step) : Option LuaValue :=
  match s.out with
  | .ret (_ :: r :: _) => some r
  | _ => none

/-- The call raised an argument or type error before any driver call. -/
def Step.RaisedBeforeDriver (s : Step) : Prop :=
  ∃ e, s.out = .raise e ∧ s.calls = []

/-- A failure pair: a nil payload and a failure reason, either the
classification `io_pusherror` pushes or the reason text of the driver. -/
def IsFailurePair (out : Outcome) : Prop :=
  (∃ f, out = .ret [.nil, .failure f]) ∨ (∃ reason, out = .ret [.nil, .string reason])

/-- The value given to a membership handler passes its checks: it is a table
whose `multiaddr` field is a string that parses as an address and whose
`interface` field is a string that is `"*"` or parses as an address. -/
def MembershipValid (d : Driver) (arg : LuaValue) : Prop :=
  ∃ fields, arg = .table fields ∧
    lua_isstring (lua_gettable fields "multiaddr") = true ∧
    d.inet_aton (lua_tostring d (lua_gettable fields "multiaddr")) ≠ none ∧
    lua_isstring (lua_gettable fields "interface") = true ∧
    (lua_tostring d (lua_gettable fields "interface") = "*" ∨
      d.inet_aton (lua_tostring d (lua_gettable fields "interface")) ≠ none)

/-- The membership table of the worked examples: group `224.0.0.1` on any
interface. -/
def exampleMembership : List (String × LuaField) :=
  [("multiaddr", .string "224.0.0.1"), ("interface", .string "*")]

/-! ## Concrete collaborators for the worked examples -/

/-- A driver for the worked examples. Transfers on a released handle report
`IO_CLOSED`; on a live handle every transfer reports `sendStatus`; connecting
gives `connectErr`; only `127.0.0.1` and `224.0.0.1` parse as addresses;
`size_t` has 64 bits and a number outside its range converts to 0. -/
def exampleDriver (sendStatus : IOStatus) (connectErr : Option String) : Driver :=
  { sock_send := fun sock _ _ =>
      if sock = SOCK_INVALID then (.IO_CLOSED, 0) else (sendStatus, 4)
    sock_sendto := fun sock _ _ _ =>
      if sock = SOCK_INVALID then (.IO_CLOSED, 0) else (sendStatus, 4)
    sock_recv := fun sock _ _ =>
      if sock = SOCK_INVALID then (.IO_CLOSED, "") else (sendStatus, "ping")
    sock_recvfrom := fun sock _ _ =>
      if sock = SOCK_INVALID then (.IO_CLOSED, "", ⟨0, 0⟩)
      else (sendStatus, "ping", ⟨2130706433, 9000⟩)
    inet_tryconnect := fun _ _ _ _ => connectErr
    inet_trybind := fun _ _ _ _ => none
    inet_trycreate := (none, 3)
    setsockopt := fun _ _ _ _ => 0
    inet_aton := fun s =>
      if s = "127.0.0.1" then some 2130706433
      else if s = "224.0.0.1" then some 3758096385
      else none
    inet_ntoa := fun _ => "127.0.0.1"
    tm_gettime := fun k => 1000 + k
    lua_number2str := fun n => toString n
    SIZE_MAX := 2 ^ 64 - 1
    size_t_undefined := fun _ => 0 }

/-- An unconnected Endpoint on descriptor 3 with the default (infinite) policy. -/
def exampleUnconnected : UdpObject :=
  { udp := { sock := 3, tm := tm_init (-1) (-1) }, cls := .udp_unconnected }

/-- A connected Endpoint on descriptor 3 with a policy of 500 per block and
2000 in total, its clock last marked at 100. -/
def exampleConnected : UdpObject :=
  { udp := { sock := 3, tm := { block := 500, total := 2000, start := 100 } },
    cls := .udp_connected }

/-! ## Theorems -/

/-- The example driver reports `Closed` on a released handle. -/
theorem exampleDriver_reportsClosed (st : IOStatus) (ce : Option String) :
    ReportsClosedWhenDestroyed (exampleDriver st ce) :=
  ⟨fun _ _ => rfl, fun _ _ _ => rfl, fun _ _ => rfl, fun _ _ => rfl⟩

/-- C1 as stated fails: on a connected Endpoint, `send` after `close` is
reported as `PeerRejected`, not `Closed`, although the driver reports `Closed`
for the released handle; so is `sendto` on an unconnected Endpoint. -/
theorem C1_send_after_close_not_closed :
    ReportsClosedWhenDestroyed (exampleDriver .IO_DONE none) ∧
    (meth_send (exampleDriver .IO_DONE none) (meth_close exampleConnected).obj "ping").out
      = .ret [.nil, .failure .PeerRejected] ∧
    (meth_send (exampleDriver .IO_DONE none) (meth_close exampleConnected).obj "ping").out
      ≠ .ret [.nil, .failure .Closed] ∧
    (meth_sendto (exampleDriver .IO_DONE none) (meth_close exampleUnconnected).obj "ping"
        "127.0.0.1" 9000).out
      = .ret [.nil, .failure .PeerRejected] := by
  refine ⟨⟨?_, ?_, ?_, ?_⟩, ?_, ?_, ?_⟩
  · intro _ _; rfl
  · intro _ _ _; rfl
  · intro _ _; rfl
  · intro _ _; rfl
  · decide
  · decide
  · decide

/-- C1 (amended): after `close`, with a driver that reports `Closed` for a
released handle, `receive` in either state and `receivefrom` on an unconnected
Endpoint fail with `Closed`; `send` on a connected Endpoint and `sendto` (with
an address that parses) on an unconnected Endpoint fail with `PeerRejected`,
because both remap the driver's `Closed`; an operation that is illegal in the
state of the Endpoint raises the argument error of the class check and calls
no driver. -/
theorem C1_io_after_close (d : Driver) (u c : UdpObject) (data ip : String)
    (port : Nat) (count : Option Int)
    (hd : ReportsClosedWhenDestroyed d)
    (hu : u.cls = .udp_unconnected) (hc : c.cls = .udp_connected) :
    (meth_receive d (meth_close u).obj count).out = .ret [.nil, .failure .Closed] ∧
    (meth_receive d (meth_close c).obj count).out = .ret [.nil, .failure .Closed] ∧
    (meth_receivefrom d (meth_close u).obj count).out = .ret [.nil, .failure .Closed] ∧
    (meth_send d (meth_close c).obj data).out = .ret [.nil, .failure .PeerRejected] ∧
    (d.inet_aton ip ≠ none →
      (meth_sendto d (meth_close u).obj data ip port).out
        = .ret [.nil, .failure .PeerRejected]) ∧
    ((∃ msg, (meth_send d (meth_close u).obj data).out = .raise (.argerror 1 msg)) ∧
      (meth_send d (meth_close u).obj data).calls = []) ∧
    ((∃ msg, (meth_sendto d (meth_close c).obj data ip port).out
        = .raise (.argerror 1 msg)) ∧
      (meth_sendto d (meth_close c).obj data ip port).calls = []) ∧
    ((∃ msg, (meth_receivefrom d (meth_close c).obj count).out
        = .raise (.argerror 1 msg)) ∧
      (meth_receivefrom d (meth_close c).obj count).calls = []) := by
  obtain ⟨hs, hst, hr, hrf⟩ := hd
  obtain ⟨uu, ucls⟩ := u
  obtain ⟨cu, ccls⟩ := c
  simp only at hu hc
  subst hu hc
  refine ⟨?_, ?_, ?_, ?_, ?_, ?_, ?_, ?_⟩
  · simp [meth_receive, meth_close, aux_checkgroup, udp_open, sock_destroy, hr, io_pusherror]
  · simp [meth_receive, meth_close, aux_checkgroup, udp_open, sock_destroy, hr, io_pusherror]
  · simp [meth_receivefrom, meth_close, aux_checkgroup, aux_checkclass, udp_open,
      sock_destroy, hrf, io_pusherror]
  · simp [meth_send, meth_close, aux_checkgroup, aux_checkclass, udp_open, sock_destroy, hs,
      io_pusherror]
  · intro hip
    obtain ⟨a, ha⟩ := Option.ne_none_iff_exists'.mp hip
    simp [meth_sendto, meth_close, aux_checkgroup, aux_checkclass, udp_open, sock_destroy,
      hst, io_pusherror, ha]
  · simp [meth_send, meth_close, aux_checkgroup, aux_checkclass, udp_open]
  · simp [meth_sendto, meth_close, aux_checkgroup, aux_checkclass, udp_open]
  · simp [meth_receivefrom, meth_close, aux_checkgroup, aux_checkclass, udp_open]

/-- Witness for `C1_io_after_close`: the example driver on the two example
Endpoints. -/
theorem C1_io_after_close_witness :
    ReportsClosedWhenDestroyed (exampleDriver .IO_DONE none) ∧
    exampleUnconnected.cls = .udp_unconnected ∧
    exampleConnected.cls = .udp_connected ∧
    (meth_receive (exampleDriver .IO_DONE none) (meth_close exampleUnconnected).obj
        (some 100)).out = .ret [.nil, .failure .Closed] ∧
    (meth_receive (exampleDriver .IO_DONE none) (meth_close exampleConnected).obj
        (some 100)).out = .ret [.nil, .failure .Closed] ∧
    (meth_receivefrom (exampleDriver .IO_DONE none) (meth_close exampleUnconnected).obj
        (some 100)).out = .ret [.nil, .failure .Closed] ∧
    (meth_send (exampleDriver .IO_DONE none) (meth_close exampleConnected).obj
        "ping").out = .ret [.nil, .failure .PeerRejected] :=
  have h := C1_io_after_close (exampleDriver .IO_DONE none) exampleUnconnected
    exampleConnected "ping" "127.0.0.1" 9000 (some 100)
    (exampleDriver_reportsClosed .IO_DONE none) rfl rfl
  ⟨exampleDriver_reportsClosed .IO_DONE none, rfl, rfl, h.1, h.2.1, h.2.2.1, h.2.2.2.1⟩

/-- C4: `send` on an unconnected Endpoint and `sendto` on a connected Endpoint
fail with the argument error of the class check; the driver is not called and
the Endpoint (class, handle, timeout record) is unchanged. -/
theorem C4_send_sendto_wrong_state (d : Driver) (u c : UdpObject) (data ip : String)
    (port : Nat) (hu : u.cls = .udp_unconnected) (hc : c.cls = .udp_connected) :
    ((∃ msg, (meth_send d u data).out = .raise (.argerror 1 msg)) ∧
      (meth_send d u data).calls = [] ∧ (meth_send d u data).obj = u) ∧
    ((∃ msg, (meth_sendto d c data ip port).out = .raise (.argerror 1 msg)) ∧
      (meth_sendto d c data ip port).calls = [] ∧
      (meth_sendto d c data ip port).obj = c) := by
  constructor
  · simp [meth_send, aux_checkclass, hu]
  · simp [meth_sendto, aux_checkclass, hc]

/-- Witness for `C4_send_sendto_wrong_state`: the two example Endpoints. -/
theorem C4_send_sendto_wrong_state_witness :
    exampleUnconnected.cls = .udp_unconnected ∧
    exampleConnected.cls = .udp_connected ∧
    ((∃ msg, (meth_send (exampleDriver .IO_DONE none) exampleUnconnected "ping").out
        = .raise (.argerror 1 msg)) ∧
      (meth_send (exampleDriver .IO_DONE none) exampleUnconnected "ping").calls = [] ∧
      (meth_send (exampleDriver .IO_DONE none) exampleUnconnected "ping").obj
        = exampleUnconnected) ∧
    ((∃ msg, (meth_sendto (exampleDriver .IO_DONE none) exampleConnected "ping"
        "127.0.0.1" 9000).out = .raise (.argerror 1 msg)) ∧
      (meth_sendto (exampleDriver .IO_DONE none) exampleConnected "ping"
        "127.0.0.1" 9000).calls = [] ∧
      (meth_sendto (exampleDriver .IO_DONE none) exampleConnected "ping"
        "127.0.0.1" 9000).obj = exampleConnected) :=
  have h := C4_send_sendto_wrong_state (exampleDriver .IO_DONE none) exampleUnconnected
    exampleConnected "ping" "127.0.0.1" 9000 rfl rfl
  ⟨rfl, rfl, h.1, h.2⟩

/-- C2 (failing input): on a connected Endpoint, `setpeername` with the
wildcard and a driver whose connect succeeds does not return success, makes no
driver call, and leaves the Endpoint connected: the class check at the top of
`meth_setpeername` raises before the branch that would set the class back to
`udp{unconnected}` is reached. -/
theorem C2_wildcard_on_connected_rejected :
    (exampleDriver .IO_DONE none).inet_tryconnect exampleConnected.udp.sock
      exampleConnected.udp.tm "*" 0 = none ∧
    (meth_setpeername (exampleDriver .IO_DONE none) exampleConnected "*" none).out
      ≠ .ret [.number 1] ∧
    (meth_setpeername (exampleDriver .IO_DONE none) exampleConnected "*" none).out
      = .raise (.argerror 1 (ClassName.udp_unconnected.name ++ " expected")) ∧
    (meth_setpeername (exampleDriver .IO_DONE none) exampleConnected "*" none).calls = [] ∧
    (meth_setpeername (exampleDriver .IO_DONE none) exampleConnected "*" none).obj.cls
      = .udp_connected := by
  refine ⟨rfl, ?_, ?_, ?_, ?_⟩ <;> decide

/-- On an unconnected Endpoint the wildcard call with a driver call that
succeeds returns success and the Endpoint is unconnected. -/
theorem meth_setpeername_wildcard_unconnected (d : Driver) (u : UdpObject)
    (port : Option Nat) (hu : u.cls = .udp_unconnected)
    (hok : d.inet_tryconnect u.udp.sock u.udp.tm "*" (port.getD 0) = none) :
    (meth_setpeername d u "*" port).out = .ret [.number 1] ∧
    (meth_setpeername d u "*" port).obj.cls = .udp_unconnected ∧
    (meth_setpeername d u "*" port).calls
      = [.inet_tryconnect u.udp.sock "*" (port.getD 0)] := by
  simp [meth_setpeername, aux_checkclass, hu, hok]

/-- On a connected Endpoint every `setpeername` call is stopped by the class
check: it raises, calls no driver and leaves the Endpoint as it was. -/
theorem meth_setpeername_connected_rejected (d : Driver) (c : UdpObject)
    (address : String) (port : Option Nat) (hc : c.cls = .udp_connected) :
    meth_setpeername d c address port
      = { out := .raise (.argerror 1 (ClassName.udp_unconnected.name ++ " expected")),
          obj := c, calls := [] } := by
  simp [meth_setpeername, aux_checkclass, hc]

/-- The wildcard branch of `meth_setpeername` never changes an Endpoint: the
only Endpoints that reach `aux_setclass(L, "udp{unconnected}", 1)` are already
unconnected. -/
theorem meth_setpeername_wildcard_obj (d : Driver) (o : UdpObject) (port : Option Nat) :
    (meth_setpeername d o "*" port).obj = o := by
  obtain ⟨ou, ocls⟩ := o
  cases ocls
  · simp [meth_setpeername, aux_checkclass]
  · cases h : d.inet_tryconnect ou.sock ou.tm "*" (port.getD 0) <;>
      simp [meth_setpeername, aux_checkclass, h]

/-- C7: on an unconnected Endpoint, for every address and port: if the
driver's connect fails, `setpeername` returns nil and the driver's textual
reason and the Endpoint is still unconnected; if it succeeds and the address
is not the wildcard, `setpeername` returns success and the Endpoint is
connected. -/
theorem C7_setpeername_connect (d : Driver) (u : UdpObject) (address : String)
    (port : Nat) (hu : u.cls = .udp_unconnected) :
    (∀ err, d.inet_tryconnect u.udp.sock u.udp.tm address port = some err →
      (meth_setpeername d u address (some port)).out = .ret [.nil, .string err] ∧
      (meth_setpeername d u address (some port)).obj = u) ∧
    (d.inet_tryconnect u.udp.sock u.udp.tm address port = none → address ≠ "*" →
      (meth_setpeername d u address (some port)).out = .ret [.number 1] ∧
      (meth_setpeername d u address (some port)).obj.cls = .udp_connected) := by
  constructor
  · intro err herr
    by_cases ha : address = "*"
    · subst ha
      simp [meth_setpeername, aux_checkclass, hu, herr]
    · simp [meth_setpeername, aux_checkclass, hu, herr, ha]
  · intro hok ha
    simp [meth_setpeername, aux_checkclass, hu, hok, ha]

/-- Witness for `C7_setpeername_connect`: a driver whose connect fails with
"connection refused", and one whose connect succeeds. -/
theorem C7_setpeername_connect_witness :
    exampleUnconnected.cls = .udp_unconnected ∧
    ((meth_setpeername (exampleDriver .IO_DONE (some "connection refused"))
        exampleUnconnected "127.0.0.1" (some 9000)).out
        = .ret [.nil, .string "connection refused"] ∧
      (meth_setpeername (exampleDriver .IO_DONE (some "connection refused"))
        exampleUnconnected "127.0.0.1" (some 9000)).obj = exampleUnconnected) ∧
    ((meth_setpeername (exampleDriver .IO_DONE none) exampleUnconnected "127.0.0.1"
        (some 9000)).out = .ret [.number 1] ∧
      (meth_setpeername (exampleDriver .IO_DONE none) exampleUnconnected "127.0.0.1"
        (some 9000)).obj.cls = .udp_connected) :=
  ⟨rfl,
   (C7_setpeername_connect (exampleDriver .IO_DONE (some "connection refused"))
      exampleUnconnected "127.0.0.1" 9000 rfl).1 "connection refused" rfl,
   (C7_setpeername_connect (exampleDriver .IO_DONE none) exampleUnconnected "127.0.0.1"
      9000 rfl).2 rfl (by decide)⟩

/-- The `switch` of `meth_shutdown` has no default case: every direction whose
first character is none of `b`, `s`, `r` returns without an error and without
a driver call. -/
theorem meth_shutdown_no_default (o : UdpObject) (how : String)
    (hb : how.data.head? ≠ some 'b') (hs : how.data.head? ≠ some 's')
    (hr : how.data.head? ≠ some 'r') :
    meth_shutdown o (some how) = { out := .ret [], obj := o, calls := [] } := by
  have hg : aux_checkgroup .udp_any 1 o = .ok o.udp := by
    obtain ⟨ou, ocls⟩ := o
    cases ocls <;> rfl
  simp only [meth_shutdown, hg, Option.getD_some]

/-- C3 (failing inputs): a direction whose first character is none of `b`,
`s`, `r` (here `"x"` and the empty string) is accepted: `shutdown` raises no
error and calls no driver. A direction that starts with one of the three
letters and is not the whole word raises the argument error, and the three
valid words call the driver with 2, 1 and 0. -/
theorem C3_shutdown_unmatched_first_char (o : UdpObject) :
    meth_shutdown o (some "x") = { out := .ret [], obj := o, calls := [] } ∧
    meth_shutdown o (some "") = { out := .ret [], obj := o, calls := [] } ∧
    meth_shutdown o (some "bogus")
      = { out := .raise (.argerror 2 "invalid shutdown method"), obj := o, calls := [] } ∧
    meth_shutdown o (some "both")
      = { out := .ret [], obj := o, calls := [.sock_shutdown o.udp.sock 2] } ∧
    meth_shutdown o (some "send")
      = { out := .ret [], obj := o, calls := [.sock_shutdown o.udp.sock 1] } ∧
    meth_shutdown o (some "receive")
      = { out := .ret [], obj := o, calls := [.sock_shutdown o.udp.sock 0] } := by
  obtain ⟨udp, cls⟩ := o
  cases cls <;> exact ⟨rfl, rfl, rfl, rfl, rfl, rfl⟩

/-- C5 as stated fails: no single driver status is the one reported as
`PeerRejected`. A `send` whose driver status is `IO_CLOSED` and a `send` whose
driver status is `IO_REFUSED` are both reported as `PeerRejected`, and the
`IO_CLOSED` status is not reported unchanged (`receive` reports it as
`Closed`). -/
theorem C5_two_statuses_report_peer_rejected :
    (meth_send (exampleDriver .IO_CLOSED none) exampleConnected "ping").out
      = .ret [.nil, .failure .PeerRejected] ∧
    (meth_send (exampleDriver .IO_REFUSED none) exampleConnected "ping").out
      = .ret [.nil, .failure .PeerRejected] ∧
    IOStatus.IO_CLOSED ≠ IOStatus.IO_REFUSED ∧
    (meth_receive (exampleDriver .IO_CLOSED none) exampleConnected none).out
      = .ret [.nil, .failure .Closed] ∧
    (meth_sendto (exampleDriver .IO_CLOSED none) exampleUnconnected "ping" "127.0.0.1"
        9000).out = .ret [.nil, .failure .PeerRejected] ∧
    (meth_sendto (exampleDriver .IO_REFUSED none) exampleUnconnected "ping" "127.0.0.1"
        9000).out = .ret [.nil, .failure .PeerRejected] := by
  refine ⟨?_, ?_, ?_, ?_, ?_, ?_⟩ <;> decide

/-- C5 (amended): `send` and `sendto` report the driver's `Closed` status as
`PeerRejected`, which is distinct from `Closed`: the reported reason is
`PeerRejected` exactly when the driver status is `Closed` or `Refused`, it is
never `Closed`, and every driver status other than `Closed` is reported
unchanged; `receive` and `receivefrom` report every status unchanged. -/
theorem C5_refusal_remap (d : Driver) (c u : UdpObject) (data ip : String) (port a : Nat)
    (count : Option Int)
    (hc : c.cls = .udp_connected) (hu : u.cls = .udp_unconnected)
    (hip : d.inet_aton ip = some a) :
    (((meth_send d c data).second = some (.failure .PeerRejected) ↔
        (d.sock_send c.udp.sock data (budget d c.udp.tm)).1 = .IO_CLOSED ∨
        (d.sock_send c.udp.sock data (budget d c.udp.tm)).1 = .IO_REFUSED) ∧
      (meth_send d c data).second ≠ some (.failure .Closed) ∧
      ((d.sock_send c.udp.sock data (budget d c.udp.tm)).1 ≠ .IO_CLOSED →
        (meth_send d c data).second
          = some (io_pusherror (d.sock_send c.udp.sock data (budget d c.udp.tm)).1))) ∧
    (((meth_sendto d u data ip port).second = some (.failure .PeerRejected) ↔
        (d.sock_sendto u.udp.sock data ⟨a, port⟩ (budget d u.udp.tm)).1 = .IO_CLOSED ∨
        (d.sock_sendto u.udp.sock data ⟨a, port⟩ (budget d u.udp.tm)).1 = .IO_REFUSED) ∧
      (meth_sendto d u data ip port).second ≠ some (.failure .Closed) ∧
      ((d.sock_sendto u.udp.sock data ⟨a, port⟩ (budget d u.udp.tm)).1 ≠ .IO_CLOSED →
        (meth_sendto d u data ip port).second
          = some (io_pusherror
              (d.sock_sendto u.udp.sock data ⟨a, port⟩ (budget d u.udp.tm)).1))) ∧
    (meth_receive d c count).second
      = some (io_pusherror
          (d.sock_recv c.udp.sock (min (size_t_cast d (count.getD UDP_DATAGRAMSIZE)) UDP_DATAGRAMSIZE)
            (budget d c.udp.tm)).1) ∧
    (meth_receive d u count).second
      = some (io_pusherror
          (d.sock_recv u.udp.sock (min (size_t_cast d (count.getD UDP_DATAGRAMSIZE)) UDP_DATAGRAMSIZE)
            (budget d u.udp.tm)).1) ∧
    ((d.sock_recvfrom u.udp.sock (min (size_t_cast d (count.getD UDP_DATAGRAMSIZE)) UDP_DATAGRAMSIZE)
          (budget d u.udp.tm)).1 ≠ .IO_DONE →
      (meth_receivefrom d u count).second
        = some (io_pusherror
            (d.sock_recvfrom u.udp.sock
              (min (size_t_cast d (count.getD UDP_DATAGRAMSIZE)) UDP_DATAGRAMSIZE) (budget d u.udp.tm)).1)) := by
  refine ⟨?_, ?_, ?_, ?_, ?_⟩
  · simp only [meth_send, aux_checkclass, hc, Step.second, budget, if_true]
    cases (d.sock_send c.udp.sock data
      (tm_get (tm_markstart c.udp.tm (d.tm_gettime 0)) (d.tm_gettime 1))).1 <;>
      simp [io_pusherror]
  · simp only [meth_sendto, aux_checkclass, hu, hip, Step.second, budget, if_true]
    cases (d.sock_sendto u.udp.sock data ⟨a, port⟩
      (tm_get (tm_markstart u.udp.tm (d.tm_gettime 0)) (d.tm_gettime 1))).1 <;>
      simp [io_pusherror]
  · obtain ⟨cu, ccls⟩ := c
    cases ccls <;> simp [meth_receive, aux_checkgroup, udp_open, Step.second, budget]
  · obtain ⟨uu, ucls⟩ := u
    cases ucls <;> simp [meth_receive, aux_checkgroup, udp_open, Step.second, budget]
  · intro hne
    simp only [budget] at hne
    simp [meth_receivefrom, aux_checkclass, hu, Step.second, budget, hne]

/-- Witness for `C5_refusal_remap`: a driver whose transfers report `Closed`
on a live handle. -/
theorem C5_refusal_remap_witness :
    exampleConnected.cls = .udp_connected ∧
    exampleUnconnected.cls = .udp_unconnected ∧
    (exampleDriver .IO_CLOSED none).inet_aton "127.0.0.1" = some 2130706433 ∧
    (meth_send (exampleDriver .IO_CLOSED none) exampleConnected "ping").second
      = some (.failure .PeerRejected) ∧
    (meth_send (exampleDriver .IO_CLOSED none) exampleConnected "ping").second
      ≠ some (.failure .Closed) ∧
    (meth_sendto (exampleDriver .IO_CLOSED none) exampleUnconnected "ping" "127.0.0.1"
        9000).second = some (.failure .PeerRejected) :=
  have h := C5_refusal_remap (exampleDriver .IO_CLOSED none) exampleConnected
    exampleUnconnected "ping" "127.0.0.1" 9000 2130706433 none rfl rfl rfl
  ⟨rfl, rfl, rfl, h.1.1.mpr (Or.inl rfl), h.1.2.1, h.2.1.1.mpr (Or.inl rfl)⟩

/-- In the range of `size_t` the conversion is exact. -/
theorem size_t_cast_of_le (d : Driver) (n : Nat) (h : n ≤ d.SIZE_MAX) :
    size_t_cast d (n : Int) = n := by
  have h1 : (0 : Int) ≤ (n : Int) := Int.ofNat_nonneg n
  have h2 : (n : Int) ≤ (d.SIZE_MAX : Int) := Int.ofNat_le.mpr h
  simp [size_t_cast, h1, h2]

/-- C6 as stated fails: the size is converted to `size_t` before it is
clamped. On a platform with a 64-bit `size_t` where a number above its range
converts to 0, `receive(10^30)` and `receivefrom(10^30)` ask the driver for 0
bytes, not for `UDP_DATAGRAMSIZE`, although `10^30` is greater than
`UDP_DATAGRAMSIZE`. -/
theorem C6_out_of_range_size_not_clamped :
    (UDP_DATAGRAMSIZE : Int) < 1000000000000000000000000000000 ∧
    (meth_receive (exampleDriver .IO_DONE none) exampleConnected
        (some 1000000000000000000000000000000)).calls = [.sock_recv 3 0 500] ∧
    (meth_receive (exampleDriver .IO_DONE none) exampleConnected
        (some UDP_DATAGRAMSIZE)).calls = [.sock_recv 3 UDP_DATAGRAMSIZE 500] ∧
    (meth_receivefrom (exampleDriver .IO_DONE none) exampleUnconnected
        (some 1000000000000000000000000000000)).calls = [.sock_recvfrom 3 0 (-1)] ∧
    (meth_receivefrom (exampleDriver .IO_DONE none) exampleUnconnected
        (some UDP_DATAGRAMSIZE)).calls = [.sock_recvfrom 3 UDP_DATAGRAMSIZE (-1)] := by
  refine ⟨?_, ?_, ?_, ?_, ?_⟩ <;> decide

/-- C6 (amended): `receive` and `receivefrom` clamp the requested size. For a
size above `UDP_DATAGRAMSIZE` and within the range of `size_t` the driver is
asked for exactly `UDP_DATAGRAMSIZE` and the whole result is that of asking
for `UDP_DATAGRAMSIZE`; for a non-negative size not above `UDP_DATAGRAMSIZE`
the driver is asked for exactly that size; an omitted size is
`UDP_DATAGRAMSIZE`. -/
theorem C6_receive_clamp (d : Driver) (o u : UdpObject) (big small : Nat)
    (hbig : UDP_DATAGRAMSIZE < big) (hrange : big ≤ d.SIZE_MAX)
    (hsmall : small ≤ UDP_DATAGRAMSIZE) (hu : u.cls = .udp_unconnected) :
    ((meth_receive d o (some (big : Int))).calls
        = [.sock_recv o.udp.sock UDP_DATAGRAMSIZE (budget d o.udp.tm)] ∧
      meth_receive d o (some (big : Int))
        = meth_receive d o (some (UDP_DATAGRAMSIZE : Int)) ∧
      (meth_receive d o (some (small : Int))).calls
        = [.sock_recv o.udp.sock small (budget d o.udp.tm)] ∧
      (meth_receive d o none).calls
        = [.sock_recv o.udp.sock UDP_DATAGRAMSIZE (budget d o.udp.tm)] ∧
      meth_receive d o none = meth_receive d o (some (UDP_DATAGRAMSIZE : Int))) ∧
    ((meth_receivefrom d u (some (big : Int))).calls
        = [.sock_recvfrom u.udp.sock UDP_DATAGRAMSIZE (budget d u.udp.tm)] ∧
      meth_receivefrom d u (some (big : Int))
        = meth_receivefrom d u (some (UDP_DATAGRAMSIZE : Int)) ∧
      (meth_receivefrom d u (some (small : Int))).calls
        = [.sock_recvfrom u.udp.sock small (budget d u.udp.tm)] ∧
      (meth_receivefrom d u none).calls
        = [.sock_recvfrom u.udp.sock UDP_DATAGRAMSIZE (budget d u.udp.tm)] ∧
      meth_receivefrom d u none
        = meth_receivefrom d u (some (UDP_DATAGRAMSIZE : Int))) := by
  have hmax : UDP_DATAGRAMSIZE ≤ d.SIZE_MAX := Nat.le_trans (Nat.le_of_lt hbig) hrange
  have c1 : size_t_cast d (big : Int) = big := size_t_cast_of_le d big hrange
  have c2 : size_t_cast d (small : Int) = small :=
    size_t_cast_of_le d small (Nat.le_trans hsmall hmax)
  have c3 : size_t_cast d (UDP_DATAGRAMSIZE : Int) = UDP_DATAGRAMSIZE :=
    size_t_cast_of_le d UDP_DATAGRAMSIZE hmax
  have h1 : min big UDP_DATAGRAMSIZE = UDP_DATAGRAMSIZE := Nat.min_eq_right (Nat.le_of_lt hbig)
  have h2 : min small UDP_DATAGRAMSIZE = small := Nat.min_eq_left hsmall
  constructor
  · obtain ⟨ou, ocls⟩ := o
    cases ocls <;>
      simp [meth_receive, aux_checkgroup, udp_open, budget, c1, c2, c3, h1, h2]
  · refine ⟨?_, ?_, ?_, ?_, ?_⟩
    · simp only [meth_receivefrom, aux_checkclass, hu, budget, Option.getD_some, c1, h1,
        if_true]
      split <;> rfl
    · simp only [meth_receivefrom, aux_checkclass, hu, Option.getD_some, c1, c3, h1, if_true,
        Nat.min_self]
    · simp only [meth_receivefrom, aux_checkclass, hu, budget, Option.getD_some, c2, h2,
        if_true]
      split <;> rfl
    · simp only [meth_receivefrom, aux_checkclass, hu, budget, Option.getD_none, c3,
        Nat.min_self, if_true]
      split <;> rfl
    · simp only [meth_receivefrom, aux_checkclass, hu, Option.getD_some, Option.getD_none,
        if_true]

/-- Witness for `C6_receive_clamp`: sizes 9000 and 100 on the example
Endpoints, with a 64-bit `size_t`. -/
theorem C6_receive_clamp_witness :
    UDP_DATAGRAMSIZE < 9000 ∧ 9000 ≤ (exampleDriver .IO_DONE none).SIZE_MAX ∧
    100 ≤ UDP_DATAGRAMSIZE ∧
    exampleUnconnected.cls = .udp_unconnected ∧
    ((meth_receive (exampleDriver .IO_DONE none) exampleConnected
          (some ((9000 : Nat) : Int))).calls
        = [.sock_recv exampleConnected.udp.sock UDP_DATAGRAMSIZE
            (budget (exampleDriver .IO_DONE none) exampleConnected.udp.tm)] ∧
      meth_receive (exampleDriver .IO_DONE none) exampleConnected (some ((9000 : Nat) : Int))
        = meth_receive (exampleDriver .IO_DONE none) exampleConnected
            (some (UDP_DATAGRAMSIZE : Int)) ∧
      (meth_receive (exampleDriver .IO_DONE none) exampleConnected
          (some ((100 : Nat) : Int))).calls
        = [.sock_recv exampleConnected.udp.sock 100
            (budget (exampleDriver .IO_DONE none) exampleConnected.udp.tm)] ∧
      (meth_receive (exampleDriver .IO_DONE none) exampleConnected none).calls
        = [.sock_recv exampleConnected.udp.sock UDP_DATAGRAMSIZE
            (budget (exampleDriver .IO_DONE none) exampleConnected.udp.tm)] ∧
      meth_receive (exampleDriver .IO_DONE none) exampleConnected none
        = meth_receive (exampleDriver .IO_DONE none) exampleConnected
            (some (UDP_DATAGRAMSIZE : Int))) :=
  have h := C6_receive_clamp (exampleDriver .IO_DONE none) exampleConnected
    exampleUnconnected 9000 100 (by decide) (by decide) (by decide) rfl
  ⟨by decide, by decide, by decide, rfl, h.1⟩

/-- A membership handler given a value that is not a table raises the type
error on argument 2 and calls no driver. -/
theorem opt_membership_not_table (d : Driver) (o : UdpObject) (level : SockLevel)
    (name : SockOpt) (arg : LuaValue) (h : ∀ fields, arg ≠ .table fields) :
    opt_membership d o level name arg
      = { out := .raise (.typerror 2 "table"), obj := o, calls := [] } := by
  obtain ⟨ou, ocls⟩ := o
  cases arg with
  | table fields => exact absurd rfl (h fields)
  | _ => cases ocls <;> rfl

/-- C8: the membership handlers, given the table `fields`. The option is
applied (one `setsockopt` call) exactly when the `multiaddr` field is a string
that parses as an address and the `interface` field is a string that is `"*"`
or parses as an address; `"*"` gives `INADDR_ANY` whatever the codec would
make of it. Otherwise the handler raises an argument error and calls no
driver: about the multicast address (`invalid 'group' field` when it is
missing or not a string, `invalid 'multiaddr' ip address` when it does not
parse), or, the multicast address being good, about the interface (`invalid
'interface' field`, `invalid 'interface' ip address`). -/
theorem C8_membership_validation (d : Driver) (o : UdpObject) (name : SockOpt)
    (fields : List (String × LuaField)) :
    (opt_ip_add_membership d o (.table fields)
        = opt_membership d o .IPPROTO_IP .IP_ADD_MEMBERSHIP (.table fields) ∧
      opt_ip_drop_membersip d o (.table fields)
        = opt_membership d o .IPPROTO_IP .IP_DROP_MEMBERSHIP (.table fields)) ∧
    ((opt_membership d o .IPPROTO_IP name (.table fields)).calls ≠ [] ↔
      (lua_isstring (lua_gettable fields "multiaddr") = true ∧
        d.inet_aton (lua_tostring d (lua_gettable fields "multiaddr")) ≠ none ∧
        lua_isstring (lua_gettable fields "interface") = true ∧
        (lua_tostring d (lua_gettable fields "interface") = "*" ∨
          d.inet_aton (lua_tostring d (lua_gettable fields "interface")) ≠ none))) ∧
    (lua_isstring (lua_gettable fields "multiaddr") = false →
      opt_membership d o .IPPROTO_IP name (.table fields)
        = { out := .raise (.argerror 2 "invalid 'group' field"), obj := o, calls := [] }) ∧
    (lua_isstring (lua_gettable fields "multiaddr") = true →
      d.inet_aton (lua_tostring d (lua_gettable fields "multiaddr")) = none →
      opt_membership d o .IPPROTO_IP name (.table fields)
        = { out := .raise (.argerror 3 "invalid 'multiaddr' ip address"), obj := o,
            calls := [] }) ∧
    (∀ a, lua_isstring (lua_gettable fields "multiaddr") = true →
      d.inet_aton (lua_tostring d (lua_gettable fields "multiaddr")) = some a →
      (lua_isstring (lua_gettable fields "interface") = false →
        opt_membership d o .IPPROTO_IP name (.table fields)
          = { out := .raise (.argerror 2 "invalid 'interface' field"), obj := o,
              calls := [] }) ∧
      (lua_isstring (lua_gettable fields "interface") = true →
        lua_tostring d (lua_gettable fields "interface") ≠ "*" →
        d.inet_aton (lua_tostring d (lua_gettable fields "interface")) = none →
        opt_membership d o .IPPROTO_IP name (.table fields)
          = { out := .raise (.argerror 3 "invalid 'interface' ip address"), obj := o,
              calls := [] }) ∧
      (lua_isstring (lua_gettable fields "interface") = true →
        lua_tostring d (lua_gettable fields "interface") = "*" →
        (opt_membership d o .IPPROTO_IP name (.table fields)).calls
          = [.setsockopt o.udp.sock .IPPROTO_IP name (.ip_mreq a INADDR_ANY)]) ∧
      (∀ b, lua_isstring (lua_gettable fields "interface") = true →
        lua_tostring d (lua_gettable fields "interface") ≠ "*" →
        d.inet_aton (lua_tostring d (lua_gettable fields "interface")) = some b →
        (opt_membership d o .IPPROTO_IP name (.table fields)).calls
          = [.setsockopt o.udp.sock .IPPROTO_IP name (.ip_mreq a b)])) := by
  have hg : aux_checkgroup .udp_any 1 o = .ok o.udp := by
    obtain ⟨ou, ocls⟩ := o
    cases ocls <;> rfl
  have hstarred : ∀ a, lua_isstring (lua_gettable fields "multiaddr") = true →
      d.inet_aton (lua_tostring d (lua_gettable fields "multiaddr")) = some a →
      lua_isstring (lua_gettable fields "interface") = true →
      lua_tostring d (lua_gettable fields "interface") = "*" →
      (opt_membership d o .IPPROTO_IP name (.table fields)).calls
        = [.setsockopt o.udp.sock .IPPROTO_IP name (.ip_mreq a INADDR_ANY)] := by
    intro a hm hma hi hstar
    by_cases hs : d.setsockopt o.udp.sock .IPPROTO_IP name (.ip_mreq a INADDR_ANY) < 0 <;>
      simp [opt_membership, hg, hm, hma, hi, hstar, hs]
  have hparsed : ∀ a b, lua_isstring (lua_gettable fields "multiaddr") = true →
      d.inet_aton (lua_tostring d (lua_gettable fields "multiaddr")) = some a →
      lua_isstring (lua_gettable fields "interface") = true →
      lua_tostring d (lua_gettable fields "interface") ≠ "*" →
      d.inet_aton (lua_tostring d (lua_gettable fields "interface")) = some b →
      (opt_membership d o .IPPROTO_IP name (.table fields)).calls
        = [.setsockopt o.udp.sock .IPPROTO_IP name (.ip_mreq a b)] := by
    intro a b hm hma hi hstar hia
    by_cases hs : d.setsockopt o.udp.sock .IPPROTO_IP name (.ip_mreq a b) < 0 <;>
      simp [opt_membership, hg, hm, hma, hi, hstar, hia, hs]
  refine ⟨⟨rfl, rfl⟩, ?_, ?_, ?_, ?_⟩
  · cases hm : lua_isstring (lua_gettable fields "multiaddr")
    · simp [opt_membership, hg, hm]
    · cases hma : d.inet_aton (lua_tostring d (lua_gettable fields "multiaddr")) with
      | none => simp [opt_membership, hg, hm, hma]
      | some a =>
        cases hi : lua_isstring (lua_gettable fields "interface")
        · simp [opt_membership, hg, hm, hma, hi]
        · by_cases hstar : lua_tostring d (lua_gettable fields "interface") = "*"
          · rw [hstarred a hm hma hi hstar]
            simp [hstar]
          · cases hia : d.inet_aton (lua_tostring d (lua_gettable fields "interface")) with
            | none => simp [opt_membership, hg, hm, hma, hi, hstar, hia]
            | some b =>
              rw [hparsed a b hm hma hi hstar hia]
              simp
  · intro hm
    simp [opt_membership, hg, hm]
  · intro hm hma
    simp [opt_membership, hg, hm, hma]
  · intro a hm hma
    refine ⟨?_, ?_, hstarred a hm hma, fun b => hparsed a b hm hma⟩
    · intro hi
      simp [opt_membership, hg, hm, hma, hi]
    · intro hi hstar hia
      simp [opt_membership, hg, hm, hma, hi, hstar, hia]

/-- Witness for `C8_membership_validation`: joining `224.0.0.1` on interface
`"*"` with a codec that does not parse `"*"` applies the option with
`INADDR_ANY`; a table without `multiaddr` raises the error about the group. -/
theorem C8_membership_validation_witness :
    (exampleDriver .IO_DONE none).inet_aton "*" = none ∧
    (opt_ip_add_membership (exampleDriver .IO_DONE none) exampleUnconnected
        (.table exampleMembership)).calls
      = [.setsockopt 3 .IPPROTO_IP .IP_ADD_MEMBERSHIP (.ip_mreq 3758096385 INADDR_ANY)] ∧
    opt_membership (exampleDriver .IO_DONE none) exampleUnconnected .IPPROTO_IP
        .IP_DROP_MEMBERSHIP (.table [("interface", .string "*")])
      = { out := .raise (.argerror 2 "invalid 'group' field"), obj := exampleUnconnected,
          calls := [] } :=
  ⟨rfl,
   (C8_membership_validation (exampleDriver .IO_DONE none) exampleUnconnected
      .IP_ADD_MEMBERSHIP exampleMembership).2.2.2.2 3758096385 rfl rfl |>.2.2.1 rfl rfl,
   (C8_membership_validation (exampleDriver .IO_DONE none) exampleUnconnected
      .IP_DROP_MEMBERSHIP [("interface", .string "*")]).2.2.1 rfl⟩

/-- C9 as stated fails: `send` on an unconnected Endpoint returns neither a
payload nor a failure reason; it raises the argument error of the class
check. -/
theorem C9_wrong_state_returns_neither :
    (meth_send (exampleDriver .IO_DONE none) exampleUnconnected "ping").out
      = .raise (.argerror 1 (ClassName.udp_connected.name ++ " expected")) ∧
    (¬ ∃ n : Nat, (meth_send (exampleDriver .IO_DONE none) exampleUnconnected "ping").out
        = .ret [.number n, .nil]) ∧
    ¬ IsFailurePair (meth_send (exampleDriver .IO_DONE none) exampleUnconnected "ping").out := by
  have h : (meth_send (exampleDriver .IO_DONE none) exampleUnconnected "ping").out
      = .raise (.argerror 1 (ClassName.udp_connected.name ++ " expected")) := by decide
  refine ⟨h, ?_, ?_⟩
  · rintro ⟨n, hn⟩
    rw [h] at hn
    cases hn
  · rintro (⟨f, hf⟩ | ⟨r, hr⟩)
    · rw [h] at hf
      cases hf
    · rw [h] at hr
      cases hr

/-- C9 (amended): every fallible operation, for every driver. Called in a
state in which it is legal and with arguments that pass its checks, the
operation calls the driver and returns exactly one of a non-nil success
payload with no failure reason (for the transfers the second value is nil, for
`receivefrom` the payload comes with the sender address and port) and a nil
payload paired with a failure reason. Called in the other state (`send` while
unconnected; `sendto`, `receivefrom`, `setpeername`, `setsockname` while
connected) or with an argument that fails a check (an address that does not
parse, a missing port, a value that is not a boolean, an invalid membership
value) it returns neither: it raises an argument error before any driver
call. `receive`, `opt_ip_multicast_ttl` and `global_create` never raise. -/
theorem C9_payload_xor_reason (d : Driver) (o c u : UdpObject)
    (data ip address : String) (port : Nat) (optport : Option Nat) (count : Option Int)
    (arg : LuaValue) (ttl : Int) (level : SockLevel) (name : SockOpt)
    (hc : c.cls = .udp_connected) (hu : u.cls = .udp_unconnected) :
    (((meth_send d c data).calls ≠ [] ∧
        Xor' (∃ n : Nat, (meth_send d c data).out = .ret [.number n, .nil])
          (IsFailurePair (meth_send d c data).out)) ∧
      (meth_send d u data).RaisedBeforeDriver) ∧
    ((d.inet_aton ip ≠ none →
        (meth_sendto d u data ip port).calls ≠ [] ∧
        Xor' (∃ n : Nat, (meth_sendto d u data ip port).out = .ret [.number n, .nil])
          (IsFailurePair (meth_sendto d u data ip port).out)) ∧
      (d.inet_aton ip = none → (meth_sendto d u data ip port).RaisedBeforeDriver) ∧
      (meth_sendto d c data ip port).RaisedBeforeDriver) ∧
    ((meth_receive d o count).calls ≠ [] ∧
      Xor' (∃ payload, (meth_receive d o count).out = .ret [.string payload, .nil])
        (IsFailurePair (meth_receive d o count).out)) ∧
    (((meth_receivefrom d u count).calls ≠ [] ∧
        Xor' (∃ payload sender, ∃ p : Nat, (meth_receivefrom d u count).out
            = .ret [.string payload, .string sender, .number p])
          (IsFailurePair (meth_receivefrom d u count).out)) ∧
      (meth_receivefrom d c count).RaisedBeforeDriver) ∧
    ((address = "*" ∨ optport ≠ none →
        (meth_setpeername d u address optport).calls ≠ [] ∧
        Xor' ((meth_setpeername d u address optport).out = .ret [.number 1])
          (IsFailurePair (meth_setpeername d u address optport).out)) ∧
      (address ≠ "*" → optport = none →
        (meth_setpeername d u address optport).RaisedBeforeDriver) ∧
      (meth_setpeername d c address optport).RaisedBeforeDriver) ∧
    (((meth_setsockname d u address port).calls ≠ [] ∧
        Xor' ((meth_setsockname d u address port).out = .ret [.number 1])
          (IsFailurePair (meth_setsockname d u address port).out)) ∧
      (meth_setsockname d c address port).RaisedBeforeDriver) ∧
    (((∃ b, arg = .boolean b) →
        (opt_boolean d o level name arg).calls ≠ [] ∧
        Xor' ((opt_boolean d o level name arg).out = .ret [.number 1])
          (IsFailurePair (opt_boolean d o level name arg).out)) ∧
      ((¬ ∃ b, arg = .boolean b) → (opt_boolean d o level name arg).RaisedBeforeDriver)) ∧
    ((opt_ip_multicast_ttl d o ttl).calls ≠ [] ∧
      Xor' ((opt_ip_multicast_ttl d o ttl).out = .ret [.number 1])
        (IsFailurePair (opt_ip_multicast_ttl d o ttl).out)) ∧
    ((MembershipValid d arg →
        (opt_membership d o level name arg).calls ≠ [] ∧
        Xor' ((opt_membership d o level name arg).out = .ret [.number 1])
          (IsFailurePair (opt_membership d o level name arg).out)) ∧
      (¬ MembershipValid d arg → (opt_membership d o level name arg).RaisedBeforeDriver)) ∧
    ((global_create d).2 ≠ [] ∧
      Xor' (∃ created, (global_create d).1 = .ret [.userdata created])
        (IsFailurePair (global_create d).1)) := by
  obtain ⟨cu, ccls⟩ := c
  obtain ⟨uu, ucls⟩ := u
  simp only at hc hu
  subst hc hu
  have hg : aux_checkgroup .udp_any 1 o = .ok o.udp := by
    obtain ⟨ou, ocls⟩ := o
    cases ocls <;> rfl
  refine ⟨⟨?_, ?_⟩, ⟨?_, ?_, ?_⟩, ?_, ⟨?_, ?_⟩, ⟨?_, ?_, ?_⟩, ⟨?_, ?_⟩, ⟨?_, ?_⟩, ?_, ⟨?_, ?_⟩, ?_⟩
  · simp only [meth_send, aux_checkclass, if_true]
    cases (d.sock_send cu.sock data
      (tm_get (tm_markstart cu.tm (d.tm_gettime 0)) (d.tm_gettime 1))).1 <;>
      simp [Xor', IsFailurePair, io_pusherror]
  · simp [meth_send, aux_checkclass, Step.RaisedBeforeDriver]
  · intro hip
    obtain ⟨a, ha⟩ := Option.ne_none_iff_exists'.mp hip
    simp only [meth_sendto, aux_checkclass, if_true, ha]
    cases (d.sock_sendto uu.sock data ⟨a, port⟩
      (tm_get (tm_markstart uu.tm (d.tm_gettime 0)) (d.tm_gettime 1))).1 <;>
      simp [Xor', IsFailurePair, io_pusherror]
  · intro hip
    simp [meth_sendto, aux_checkclass, Step.RaisedBeforeDriver, hip]
  · simp [meth_sendto, aux_checkclass, Step.RaisedBeforeDriver]
  · simp only [meth_receive, hg]
    cases (d.sock_recv o.udp.sock
      (min (size_t_cast d (count.getD UDP_DATAGRAMSIZE)) UDP_DATAGRAMSIZE)
      (tm_get (tm_markstart o.udp.tm (d.tm_gettime 0)) (d.tm_gettime 1))).1 <;>
      simp [Xor', IsFailurePair, io_pusherror]
  · simp only [meth_receivefrom, aux_checkclass, if_true]
    cases (d.sock_recvfrom uu.sock
      (min (size_t_cast d (count.getD UDP_DATAGRAMSIZE)) UDP_DATAGRAMSIZE)
      (tm_get (tm_markstart uu.tm (d.tm_gettime 0)) (d.tm_gettime 1))).1 <;>
      simp [Xor', IsFailurePair, io_pusherror]
  · simp [meth_receivefrom, aux_checkclass, Step.RaisedBeforeDriver]
  · intro hport
    by_cases ha : address = "*"
    · subst ha
      cases hcn : d.inet_tryconnect uu.sock uu.tm "*" (optport.getD 0) <;>
        simp [meth_setpeername, aux_checkclass, Xor', IsFailurePair, hcn]
    · cases optport with
      | none => exact absurd rfl (hport.resolve_left ha)
      | some p =>
        cases hcn : d.inet_tryconnect uu.sock uu.tm address p <;>
          simp [meth_setpeername, aux_checkclass, Xor', IsFailurePair, hcn, ha]
  · intro ha hnone
    subst hnone
    simp [meth_setpeername, aux_checkclass, Step.RaisedBeforeDriver, ha]
  · simp [meth_setpeername, aux_checkclass, Step.RaisedBeforeDriver]
  · cases hb : d.inet_trybind uu.sock address port (-1) <;>
      simp [meth_setsockname, aux_checkclass, Xor', IsFailurePair, hb]
  · simp [meth_setsockname, aux_checkclass, Step.RaisedBeforeDriver]
  · rintro ⟨b, rfl⟩
    by_cases hs : d.setsockopt o.udp.sock level name (.int (if b then 1 else 0)) < 0 <;>
      simp [opt_boolean, hg, aux_checkboolean, Xor', IsFailurePair, hs]
  · intro hnb
    cases arg with
    | boolean b => exact absurd ⟨b, rfl⟩ hnb
    | _ => simp [opt_boolean, hg, aux_checkboolean, Step.RaisedBeforeDriver]
  · by_cases hs : d.setsockopt o.udp.sock .IPPROTO_IP .IP_MULTICAST_TTL (.int ttl) < 0 <;>
      simp [opt_ip_multicast_ttl, hg, Xor', IsFailurePair, hs]
  · rintro ⟨fields, rfl, hm, hma, hi, hif⟩
    obtain ⟨a, ha⟩ := Option.ne_none_iff_exists'.mp hma
    by_cases hstar : lua_tostring d (lua_gettable fields "interface") = "*"
    · by_cases hs : d.setsockopt o.udp.sock level name (.ip_mreq a INADDR_ANY) < 0 <;>
        simp [opt_membership, hg, hm, ha, hi, hstar, hs, Xor', IsFailurePair]
    · obtain ⟨b, hb⟩ := Option.ne_none_iff_exists'.mp (hif.resolve_left hstar)
      by_cases hs : d.setsockopt o.udp.sock level name (.ip_mreq a b) < 0 <;>
        simp [opt_membership, hg, hm, ha, hi, hstar, hb, hs, Xor', IsFailurePair]
  · intro hinv
    cases arg with
    | table fields =>
      cases hm : lua_isstring (lua_gettable fields "multiaddr")
      · simp [opt_membership, hg, hm, Step.RaisedBeforeDriver]
      · cases hma : d.inet_aton (lua_tostring d (lua_gettable fields "multiaddr")) with
        | none => simp [opt_membership, hg, hm, hma, Step.RaisedBeforeDriver]
        | some a =>
          cases hi : lua_isstring (lua_gettable fields "interface")
          · simp [opt_membership, hg, hm, hma, hi, Step.RaisedBeforeDriver]
          · by_cases hstar : lua_tostring d (lua_gettable fields "interface") = "*"
            · exact absurd ⟨fields, rfl, hm, by simp [hma], hi, Or.inl hstar⟩ hinv
            · cases hia : d.inet_aton (lua_tostring d (lua_gettable fields "interface")) with
              | none =>
                simp [opt_membership, hg, hm, hma, hi, hstar, hia, Step.RaisedBeforeDriver]
              | some b =>
                exact absurd ⟨fields, rfl, hm, by simp [hma], hi, Or.inr (by simp [hia])⟩ hinv
    | _ => simp [opt_membership, hg, Step.RaisedBeforeDriver]
  · cases hcr : d.inet_trycreate.1 <;>
      simp [global_create, Xor', IsFailurePair, hcr]

/-- Witness for `C9_payload_xor_reason`: on the example Endpoints, `send` on
the connected one calls the driver and returns a payload and no reason, and
`send` on the unconnected one raises. -/
theorem C9_payload_xor_reason_witness :
    exampleConnected.cls = .udp_connected ∧
    exampleUnconnected.cls = .udp_unconnected ∧
    (meth_send (exampleDriver .IO_DONE none) exampleConnected "ping").out
      = .ret [.number 4, .nil] ∧
    (((meth_send (exampleDriver .IO_DONE none) exampleConnected "ping").calls ≠ [] ∧
        Xor' (∃ n : Nat, (meth_send (exampleDriver .IO_DONE none) exampleConnected "ping").out
            = .ret [.number n, .nil])
          (IsFailurePair (meth_send (exampleDriver .IO_DONE none) exampleConnected
            "ping").out)) ∧
      (meth_send (exampleDriver .IO_DONE none) exampleUnconnected
        "ping").RaisedBeforeDriver) :=
  have h := C9_payload_xor_reason (exampleDriver .IO_DONE none) exampleConnected
    exampleConnected exampleUnconnected "ping" "127.0.0.1" "127.0.0.1" 9000 (some 9000)
    none (.boolean true) 1 .SOL_SOCKET .SO_BROADCAST rfl rfl
  ⟨rfl, rfl, by decide, h.1⟩

/-- The budget after a reset deducts from the total timeout only the time
between the two clock readings of the call itself; the earlier value of the
deadline clock does not occur in it. -/
theorem budget_eq (d : Driver) (tm : t_tm) :
    budget d tm =
      if tm.block < 0 ∧ tm.total < 0 then -1
      else if tm.block < 0 then max (tm.total - (d.tm_gettime 1 - d.tm_gettime 0)) 0
      else if tm.total < 0 then tm.block
      else min tm.block (max (tm.total - (d.tm_gettime 1 - d.tm_gettime 0)) 0) := by
  simp [budget, tm_get, tm_markstart]

/-- C10: each of `send`, `sendto`, `receive`, `receivefrom` marks the start
of the operation and passes the driver the budget read after that mark. The
budget deducts only the time between the two clock readings of the call; the
whole result of the call is the same whatever the deadline clock held before
(`withStart s`), in particular after an earlier call made with any driver and
clock (`d0`); the Endpoint after the call has the clock marked at the first
reading and the same `block` and `total`. -/
theorem C10_deadline_reset (d d0 : Driver) (o c u : UdpObject) (data data0 ip : String)
    (port a : Nat) (count count0 : Option Int) (s : Int)
    (hc : c.cls = .udp_connected) (hu : u.cls = .udp_unconnected)
    (hip : d.inet_aton ip = some a) :
    ((meth_send d c data).calls = [.sock_send c.udp.sock data (budget d c.udp.tm)] ∧
      (meth_send d c data).obj = c.withStart (d.tm_gettime 0) ∧
      (meth_send d c data).obj.udp.tm.block = c.udp.tm.block ∧
      (meth_send d c data).obj.udp.tm.total = c.udp.tm.total ∧
      meth_send d (c.withStart s) data = meth_send d c data ∧
      meth_send d (meth_send d0 c data0).obj data = meth_send d c data) ∧
    ((meth_sendto d u data ip port).calls
        = [.sock_sendto u.udp.sock data ⟨a, port⟩ (budget d u.udp.tm)] ∧
      (meth_sendto d u data ip port).obj = u.withStart (d.tm_gettime 0) ∧
      (meth_sendto d u data ip port).obj.udp.tm.block = u.udp.tm.block ∧
      (meth_sendto d u data ip port).obj.udp.tm.total = u.udp.tm.total ∧
      meth_sendto d (u.withStart s) data ip port = meth_sendto d u data ip port ∧
      meth_sendto d (meth_receivefrom d0 u count0).obj data ip port
        = meth_sendto d u data ip port) ∧
    ((meth_receive d o count).calls
        = [.sock_recv o.udp.sock (min (size_t_cast d (count.getD UDP_DATAGRAMSIZE)) UDP_DATAGRAMSIZE)
            (budget d o.udp.tm)] ∧
      (meth_receive d o count).obj = o.withStart (d.tm_gettime 0) ∧
      (meth_receive d o count).obj.udp.tm.block = o.udp.tm.block ∧
      (meth_receive d o count).obj.udp.tm.total = o.udp.tm.total ∧
      meth_receive d (o.withStart s) count = meth_receive d o count ∧
      meth_receive d (meth_receive d0 o count0).obj count = meth_receive d o count) ∧
    ((meth_receivefrom d u count).calls
        = [.sock_recvfrom u.udp.sock (min (size_t_cast d (count.getD UDP_DATAGRAMSIZE)) UDP_DATAGRAMSIZE)
            (budget d u.udp.tm)] ∧
      (meth_receivefrom d u count).obj = u.withStart (d.tm_gettime 0) ∧
      (meth_receivefrom d u count).obj.udp.tm.block = u.udp.tm.block ∧
      (meth_receivefrom d u count).obj.udp.tm.total = u.udp.tm.total ∧
      meth_receivefrom d (u.withStart s) count = meth_receivefrom d u count ∧
      meth_receivefrom d (meth_receivefrom d0 u count0).obj count
        = meth_receivefrom d u count) := by
  obtain ⟨⟨csock, ctm⟩, ccls⟩ := c
  obtain ⟨⟨usock, utm⟩, ucls⟩ := u
  obtain ⟨⟨osock, otm⟩, ocls⟩ := o
  simp only at hc hu
  subst hc hu
  have hg : ∀ (x : t_udp) (k : ClassName), aux_checkgroup .udp_any 1 ⟨x, k⟩ = .ok x := by
    intro x k; cases k <;> rfl
  refine ⟨?_, ?_, ?_, ?_⟩
  · simp [meth_send, aux_checkclass, budget, UdpObject.withStart, tm_markstart]
  · refine ⟨?_, ?_, ?_, ?_, ?_, ?_⟩
    · simp [meth_sendto, aux_checkclass, budget, hip]
    · simp [meth_sendto, aux_checkclass, UdpObject.withStart, tm_markstart, hip]
    · simp [meth_sendto, aux_checkclass, tm_markstart, hip]
    · simp [meth_sendto, aux_checkclass, tm_markstart, hip]
    · simp [meth_sendto, aux_checkclass, UdpObject.withStart, tm_markstart, hip]
    · have hobj : (meth_receivefrom d0 ⟨⟨usock, utm⟩, .udp_unconnected⟩ count0).obj
          = ⟨⟨usock, tm_markstart utm (d0.tm_gettime 0)⟩, .udp_unconnected⟩ := by
        simp only [meth_receivefrom, aux_checkclass, if_true]
        split <;> rfl
      rw [hobj]
      simp [meth_sendto, aux_checkclass, tm_markstart, hip]
  · simp [meth_receive, hg, budget, UdpObject.withStart, tm_markstart]
  · have hobj : ∀ (dd : Driver) (n : Option Int),
        (meth_receivefrom dd ⟨⟨usock, utm⟩, .udp_unconnected⟩ n).obj
          = ⟨⟨usock, tm_markstart utm (dd.tm_gettime 0)⟩, .udp_unconnected⟩ := by
      intro dd n
      simp only [meth_receivefrom, aux_checkclass, if_true]
      split <;> rfl
    refine ⟨?_, ?_, ?_, ?_, ?_, ?_⟩
    · simp only [meth_receivefrom, aux_checkclass, if_true, budget]
      split <;> rfl
    · rw [hobj]; rfl
    · rw [hobj]; rfl
    · rw [hobj]; rfl
    · simp [meth_receivefrom, aux_checkclass, UdpObject.withStart, tm_markstart]
    · rw [hobj]
      simp [meth_receivefrom, aux_checkclass, tm_markstart]

/-- Witness for `C10_deadline_reset`: the example Endpoints, the connected one
with block 500, total 2000 and a clock last marked at 100; the clock now reads
1000 and 1001, so the budget is 500. -/
theorem C10_deadline_reset_witness :
    exampleConnected.cls = .udp_connected ∧
    exampleUnconnected.cls = .udp_unconnected ∧
    (exampleDriver .IO_DONE none).inet_aton "127.0.0.1" = some 2130706433 ∧
    budget (exampleDriver .IO_DONE none) exampleConnected.udp.tm = 500 ∧
    ((meth_send (exampleDriver .IO_DONE none) exampleConnected "ping").calls
        = [.sock_send exampleConnected.udp.sock "ping"
            (budget (exampleDriver .IO_DONE none) exampleConnected.udp.tm)] ∧
      (meth_send (exampleDriver .IO_DONE none) exampleConnected "ping").obj
        = exampleConnected.withStart ((exampleDriver .IO_DONE none).tm_gettime 0) ∧
      (meth_send (exampleDriver .IO_DONE none) exampleConnected "ping").obj.udp.tm.block
        = exampleConnected.udp.tm.block ∧
      (meth_send (exampleDriver .IO_DONE none) exampleConnected "ping").obj.udp.tm.total
        = exampleConnected.udp.tm.total ∧
      meth_send (exampleDriver .IO_DONE none) (exampleConnected.withStart (-5000)) "ping"
        = meth_send (exampleDriver .IO_DONE none) exampleConnected "ping" ∧
      meth_send (exampleDriver .IO_DONE none)
          (meth_send (exampleDriver .IO_TIMEOUT none) exampleConnected "pong").obj "ping"
        = meth_send (exampleDriver .IO_DONE none) exampleConnected "ping") :=
  have h := C10_deadline_reset (exampleDriver .IO_DONE none) (exampleDriver .IO_TIMEOUT none)
    exampleConnected exampleConnected exampleUnconnected "ping" "pong" "127.0.0.1" 9000
    2130706433 none none (-5000) rfl rfl rfl
  ⟨rfl, rfl, rfl, by decide, h.1⟩

end LuaSocket
